import Mathlib

/-!
Verification of the realtimex-sdk Python client against its specification.

The SDK is a thin HTTP proxy.  We shallowly embed the parts the claims are
about:

* the permission-retry request wrappers (`ApiModule._api_call`,
  `LLMModule._request` / `VectorStore._request`,
  `ActivitiesModule._handle_response` / `WebhookModule._handle_response`,
  `TTSModule._request`) as fuel-indexed functions over an abstract upstream
  (`server : Nat → RawResp`, giving the JSON body of the n-th request to the
  protected endpoint) and an abstract Permission Broker
  (`broker : Nat → Option RawResp`, `none` modelling an exception/timeout
  during the broker call, which `_request_permission` catches and turns into
  `False`).  Each wrapper returns its outcome together with the number of
  requests it sent to the protected endpoint and to the broker;

* header construction (`_get_headers` / `_headers`, textually identical in
  every module);

* the SSE stream decoder of `LLMModule.chat_stream`, over text modelled as
  `List Char` and JSON parsing abstracted into a `parse` parameter
  (`none` models `json.JSONDecodeError`);

* the typed-response mapping of `LLMModule.chat` and `VectorStore.upsert`;

* the keyword binding of the `self.vectors.query(...)` call inside
  `LLMModule.search`.

Python `dict.get` on the fixed set of keys the code reads is modelled by a
record of `Option`-valued fields; Python string truthiness by `pyTruthyStr`.
Raised exceptions are modelled as outcome constructors.
-/

namespace Rtx

/-- Truthiness of an optional Python string: `None` and `""` are falsy. -/
def pyTruthyStr : Option String → Bool
  | none => false
  | some s => s ≠ ""

/-- Truthiness of httpx `response.is_success`: status code in [200, 300). -/
def isSuccessStatus (s : Nat) : Bool :=
  decide (200 ≤ s ∧ s < 300)

/-- Nested `response.metrics` object read by `LLMModule.chat`
(fields are carried opaquely; the SDK only copies them). -/
structure MetricsBody where
  prompt_tokens : Option Nat := none
  completion_tokens : Option Nat := none
  total_tokens : Option Nat := none
  duration : Option Int := none
  outputTps : Option Int := none
deriving DecidableEq

/-- Nested `response` object read by `LLMModule.chat`. -/
structure ChatBody where
  content : Option String := none
  model : Option String := none
  provider : Option String := none
  metrics : Option MetricsBody := none
deriving DecidableEq

/-- JSON body of an upstream response, restricted to the keys the SDK reads.
A field is `none` when the key is absent (or null).  `statusCode` is the HTTP
status of the response that carried the body. -/
structure RawResp where
  statusCode : Nat := 200
  success : Option Bool := none
  error : Option String := none
  code : Option String := none
  permission : Option String := none
  message : Option String := none
  granted : Option Bool := none
  response : Option ChatBody := none
  upserted : Option Nat := none
  nspace : Option String := none
deriving DecidableEq

/-- Model of `_request_permission` (identical in every module): POST to the
broker, return `data.get("granted", False)`; any exception (network failure,
timeout, bad JSON) is caught and turned into `False`.  `none` models the
exceptional case. -/
def requestPermission : Option RawResp → Bool
  | none => false
  | some d => d.granted.getD false

/-- Outcome of a permission-handling request wrapper.  `permissionDenied`
models a raised `PermissionDeniedError(permission, message)`, `genericError`
a raised plain `Exception`/`HTTPStatusError`, `providerError` a raised
`LLMProviderError(message, code)`, and `outOfFuel` exhaustion of the fuel
bounding the (unbounded in the source) recursion. -/
inductive CallOutcome where
  | ok (data : RawResp)
  | permissionDenied (permission : Option String) (message : Option String)
  | genericError (message : String)
  | providerError (message : String) (code : String)
  | outOfFuel
deriving DecidableEq

/-- Model of `ApiModule._api_call` (src/python/realtimex_sdk/api.py, lines
63-98).  `server si` is the JSON body (with status) of the si-th request to
the protected endpoint, `broker bi` the bi-th broker response.  Returns
(outcome, requests sent to the endpoint, requests sent to the broker).
The source recursion `return await self._api_call(method, endpoint, **kwargs)`
carries no depth bound; `fuel` only makes the model total. -/
def apiCall (server : Nat → RawResp) (broker : Nat → Option RawResp) :
    Nat → Nat → Nat → CallOutcome × Nat × Nat
  | 0, _, _ => (.outOfFuel, 0, 0)
  | fuel + 1, si, bi =>
    let r := server si
    if r.statusCode = 403 then
      if r.error = some "PERMISSION_REQUIRED" ∧ pyTruthyStr r.permission = true then
        if requestPermission (broker bi) = true then
          let rec' := apiCall server broker fuel (si + 1) (bi + 1)
          (rec'.1, rec'.2.1 + 1, rec'.2.2 + 1)
        else
          (.permissionDenied r.permission r.message, 1, 1)
      else if r.error = some "PERMISSION_DENIED" then
        (.permissionDenied r.permission r.message, 1, 0)
      else
        (.genericError (r.error.getD "Permission denied"), 1, 0)
    else if isSuccessStatus r.statusCode = false then
      (.genericError (r.error.getD ("API call failed: " ++ toString r.statusCode)), 1, 0)
    else
      (.ok r, 1, 0)

/-- Model of `LLMModule._request` (src/python/realtimex_sdk/llm.py, lines
565-588) and of the textually identical `VectorStore._request` (lines
250-273); they differ only in the default permission string (`"llm.chat"`
vs `"vectors.read"`), passed here as `defaultPerm`. -/
def llmRequest (defaultPerm : String) (server : Nat → RawResp)
    (broker : Nat → Option RawResp) :
    Nat → Nat → Nat → CallOutcome × Nat × Nat
  | 0, _, _ => (.outOfFuel, 0, 0)
  | fuel + 1, si, bi =>
    let r := server si
    if r.code = some "PERMISSION_REQUIRED" then
      let permission := r.permission.getD defaultPerm
      if requestPermission (broker bi) = true then
        let rec' := llmRequest defaultPerm server broker fuel (si + 1) (bi + 1)
        (rec'.1, rec'.2.1 + 1, rec'.2.2 + 1)
      else
        (.permissionDenied (some permission) none, 1, 1)
    else if (¬ r.success.getD false = true) ∧ pyTruthyStr r.error = true then
      if r.code = some "LLM_ERROR" then
        (.providerError (r.error.getD "") "LLM_ERROR", 1, 0)
      else if r.code = some "PROVIDER_UNAVAILABLE" then
        (.providerError (r.error.getD "Provider not available") "LLM_ERROR", 1, 0)
      else
        (.ok r, 1, 0)
    else
      (.ok r, 1, 0)

/-- Model of `ActivitiesModule._handle_response` (activities.py, lines 50-72)
together with the `do_request` closures that re-invoke it as `retry_fn`;
`WebhookModule._handle_response` (webhook.py, lines 41-63) is textually
identical.  `response.raise_for_status()` on a non-2xx status is modelled as
a generic error carrying the status code. -/
def handleCall (server : Nat → RawResp) (broker : Nat → Option RawResp) :
    Nat → Nat → Nat → CallOutcome × Nat × Nat
  | 0, _, _ => (.outOfFuel, 0, 0)
  | fuel + 1, si, bi =>
    let r := server si
    if r.statusCode = 403 then
      if r.error = some "PERMISSION_REQUIRED" ∧ pyTruthyStr r.permission = true then
        if requestPermission (broker bi) = true then
          let rec' := handleCall server broker fuel (si + 1) (bi + 1)
          (rec'.1, rec'.2.1 + 1, rec'.2.2 + 1)
        else
          (.permissionDenied r.permission r.message, 1, 1)
      else if r.error = some "PERMISSION_DENIED" then
        (.permissionDenied r.permission r.message, 1, 0)
      else
        (.genericError ("HTTP status " ++ toString r.statusCode), 1, 0)
    else if isSuccessStatus r.statusCode = false then
      (.genericError ("HTTP status " ++ toString r.statusCode), 1, 0)
    else
      (.ok r, 1, 0)

/-- Upstream response as seen by `TTSModule._request`: raw body bytes
(abstracted to a string) plus the JSON body when `response.json()` succeeds
(`none` models `json.JSONDecodeError`). -/
structure TtsResp where
  statusCode : Nat := 200
  content : String := ""
  body : Option RawResp := none
deriving DecidableEq

/-- Outcome of `TTSModule._request`: audio bytes, a raised
`PermissionDeniedError(permission)`, a raised generic exception, or fuel
exhaustion. -/
inductive TtsOutcome where
  | ok (content : String)
  | permissionDenied (permission : String)
  | genericError (message : String)
  | outOfFuel
deriving DecidableEq

/-- Model of `TTSModule._request` (src/python/realtimex_sdk/tts.py, lines
62-95).  Status 200 returns the body bytes; otherwise the JSON body is
inspected: `code == "PERMISSION_REQUIRED"` triggers the broker handshake,
any other JSON body raises a generic exception, and an unparsable body
falls back to `raise_for_status()` (generic error on non-2xx, else the raw
bytes). -/
def ttsRequest (server : Nat → TtsResp) (broker : Nat → Option RawResp) :
    Nat → Nat → Nat → TtsOutcome × Nat × Nat
  | 0, _, _ => (.outOfFuel, 0, 0)
  | fuel + 1, si, bi =>
    let r := server si
    if r.statusCode = 200 then
      (.ok r.content, 1, 0)
    else
      match r.body with
      | some d =>
        if d.code = some "PERMISSION_REQUIRED" then
          let permission := d.permission.getD "tts.generate"
          if requestPermission (broker bi) = true then
            let rec' := ttsRequest server broker fuel (si + 1) (bi + 1)
            (rec'.1, rec'.2.1 + 1, rec'.2.2 + 1)
          else
            (.permissionDenied permission, 1, 1)
        else
          (.genericError (d.error.getD ("Request failed: " ++ toString r.statusCode)), 1, 0)
      | none =>
        if isSuccessStatus r.statusCode = false then
          (.genericError ("HTTP status " ++ toString r.statusCode), 1, 0)
        else
          (.ok r.content, 1, 0)

/-- Model of `_get_headers` / `_headers` (textually identical in ApiModule,
ActivitiesModule, WebhookModule, LLMModule, VectorStore and TTSModule):
start from Content-Type, then two independent `if` statements add the
Authorization header when the API key is truthy and the x-app-id header when
the app id is truthy. -/
def getHeaders (apiKey appId : Option String) : List (String × String) :=
  [("Content-Type", "application/json")]
    ++ (if pyTruthyStr apiKey = true then
          [("Authorization", "Bearer " ++ apiKey.getD "")] else [])
    ++ (if pyTruthyStr appId = true then
          [("x-app-id", appId.getD "")] else [])

/-- Typed `ChatMetrics` record built by `LLMModule.chat`. -/
structure ChatMetrics where
  prompt_tokens : Nat
  completion_tokens : Nat
  total_tokens : Nat
  duration : Option Int
  output_tps : Option Int
deriving DecidableEq

/-- Typed response of `LLMModule.chat`. -/
structure ChatResponse where
  success : Bool
  content : Option String
  model : Option String
  provider : Option String
  metrics : Option ChatMetrics
  error : Option String
  code : Option String
deriving DecidableEq

/-- Mapping of the raw JSON body into a `ChatResponse`, from
`LLMModule.chat` (llm.py, lines 671-688).  `resp_data.get("metrics", {})`
is falsy exactly when the key is absent, in which case `metrics` is
`None`; otherwise a `ChatMetrics` is built with the source's defaults. -/
def chatMap (data : RawResp) : ChatResponse :=
  let respData := data.response.getD {}
  { success := data.success.getD false
    content := respData.content
    model := respData.model
    provider := respData.provider
    metrics :=
      match respData.metrics with
      | some m =>
        some { prompt_tokens := m.prompt_tokens.getD 0
               completion_tokens := m.completion_tokens.getD 0
               total_tokens := m.total_tokens.getD 0
               duration := m.duration
               output_tps := m.outputTps }
      | none => none
    error := data.error
    code := data.code }

/-- Typed response of `VectorStore.upsert`. -/
structure VectorUpsertResponse where
  success : Bool
  upserted : Nat
  nspace : Option String
  error : Option String
  code : Option String
deriving DecidableEq

/-- Mapping of the raw JSON body into a `VectorUpsertResponse`, from
`VectorStore.upsert` (llm.py, lines 312-318). -/
def upsertMap (data : RawResp) : VectorUpsertResponse :=
  { success := data.success.getD false
    upserted := data.upserted.getD 0
    nspace := data.nspace
    error := data.error
    code := data.code }

/-- Named parameters of `VectorStore.query` (llm.py, lines 320-326),
excluding `self`: `def query(self, vector, top_k=5, workspace_id=None,
document_id=None)`.  The signature has no `**kwargs`. -/
def vectorQueryParams : List String :=
  ["vector", "top_k", "workspace_id", "document_id"]

/-- Keyword arguments passed by `LLMModule.search` at its
`self.vectors.query(...)` call (llm.py, lines 905-911). -/
def searchQueryKeywords : List String :=
  ["vector", "top_k", "workspace_id", "document_id", "model"]

/-- Result of `LLMModule.embed` as far as `search` inspects it. -/
structure EmbedResult (α : Type) where
  success : Bool
  embeddings : Option (List α)
deriving DecidableEq

/-- How far `LLMModule.search` gets: a raised
`LLMProviderError("Failed to embed query")`, a `TypeError` raised by Python
when binding the keyword arguments of the `self.vectors.query(...)` call, or
an actually issued vector query. -/
inductive SearchStep (α : Type) where
  | embedFailed
  | typeErrorAtQueryCall
  | queryIssued (vector : α)
deriving DecidableEq

/-- Model of `LLMModule.search` (llm.py, lines 877-916) up to the vector
query.  Python binds a call's keyword arguments against the callee's named
parameters before the coroutine body runs, and raises `TypeError` when a
keyword (here `model`) matches no parameter; only when every keyword binds
is the query issued with `embed_result.embeddings[0]`. -/
def searchModel {α : Type} (e : EmbedResult α) : SearchStep α :=
  match e.embeddings with
  | none => .embedFailed
  | some [] => .embedFailed
  | some (v :: _) =>
    if e.success = false then .embedFailed
    else if searchQueryKeywords.all (fun k => decide (k ∈ vectorQueryParams)) then
      .queryIssued v
    else .typeErrorAtQueryCall

/-- Subset of JSON values sufficient for the payload fields the stream
decoder reads. -/
inductive JVal where
  | jnull
  | jbool (b : Bool)
  | jnum (n : Int)
  | jstr (s : String)
deriving DecidableEq

/-- Parsed JSON object: association list of keys to values. -/
abbrev JObj := List (String × JVal)

/-- Python `dict.get(k)` on a parsed object (`none` for an absent key). -/
def jget (d : JObj) (k : String) : Option JVal :=
  (d.find? (fun p => p.1 == k)).map (fun p => p.2)

/-- Decoded `StreamChunk` as built by `LLMModule.chat_stream`; the fields
hold whatever JSON values `dict.get` returned. -/
structure StreamChunkM where
  text : JVal
  uuid : Option JVal
  close : JVal
  error : JVal
deriving DecidableEq

/-- Payload of a raised `LLMProviderError` from an `event: error` frame. -/
structure ProvErr where
  msg : JVal
  code : JVal
deriving DecidableEq

/-- StreamChunk construction from a parsed data payload (llm.py, lines
774-779). -/
def mkChunk (d : JObj) : StreamChunkM :=
  { text := (jget d "textResponse").getD (.jstr "")
    uuid := jget d "uuid"
    close := (jget d "close").getD (.jbool false)
    error := (jget d "error").getD (.jbool false) }

/-- LLMProviderError construction from an error-event payload (llm.py,
lines 769-772). -/
def mkStreamErr (d : JObj) : ProvErr :=
  { msg := (jget d "error").getD (.jstr "Stream error")
    code := (jget d "code").getD (.jstr "LLM_STREAM_ERROR") }

/-- Characters stripped by Python `str.strip()`. -/
def pyIsSpace (c : Char) : Bool :=
  c == ' ' || c == '\t' || c == '\n' || c == '\r' || c == '\x0b' || c == '\x0c'

/-- Python `line.strip()` over text modelled as a list of characters. -/
def pyStrip (l : List Char) : List Char :=
  ((l.dropWhile pyIsSpace).reverse.dropWhile pyIsSpace).reverse

/-- Line loop of `LLMModule.chat_stream` (llm.py, lines 749-784): processes
the complete lines of one or more reads, threading `is_error_event` and
stopping at a raised `LLMProviderError`.  `parse` stands for `json.loads`
on a data payload, `none` modelling `json.JSONDecodeError`.  Returns the
yielded chunks, the raised provider error if any, and the final
`is_error_event` state. -/
def processLines (parse : List Char → Option JObj) :
    Bool → List (List Char) → List StreamChunkM × Option ProvErr × Bool
  | isErr, [] => ([], none, isErr)
  | isErr, line :: rest =>
    let t := pyStrip line
    if t.isEmpty || [':'].isPrefixOf t then
      processLines parse isErr rest
    else if ("event: error".toList).isPrefixOf t then
      processLines parse true rest
    else if ("data: ".toList).isPrefixOf t then
      let js := t.drop 6
      if js = "[DONE]".toList then
        processLines parse false rest
      else
        match parse js with
        | none => processLines parse false rest
        | some d =>
          if isErr then
            ([], some (mkStreamErr d), false)
          else
            let r := processLines parse false rest
            (mkChunk d :: r.1, r.2.1, r.2.2)
    else
      processLines parse isErr rest

/-- Python `lines = buffer.split("\n"); buffer = lines.pop()` (llm.py, lines
746-747): the complete lines of a buffer and the trailing partial line kept
for the next read. -/
def splitLines : List Char → List (List Char) × List Char
  | [] => ([], [])
  | c :: cs =>
    let r := splitLines cs
    if c = '\n' then
      ([] :: r.1, r.2)
    else
      match r.1 with
      | [] => ([], c :: r.2)
      | h :: t => ((c :: h) :: t, r.2)

/-- Read loop of `LLMModule.chat_stream` (llm.py, lines 742-747): each
network read is appended to the buffer, complete lines are processed, the
trailing partial line is buffered.  At end of stream any leftover buffer is
discarded (the Python `for` simply ends). -/
def feedReads (parse : List Char → Option JObj) :
    Bool → List Char → List (List Char) → List StreamChunkM × Option ProvErr
  | _, _, [] => ([], none)
  | isErr, buffer, r :: rs =>
    let s := splitLines (buffer ++ r)
    let p := processLines parse isErr s.1
    match p.2.1 with
    | some e => (p.1, some e)
    | none =>
      let q := feedReads parse p.2.2 s.2 rs
      (p.1 ++ q.1, q.2)

/-- Whole-stream SSE decoding: the chunk sequence and optional raised error
produced by `chat_stream`'s decoder for a given sequence of network reads. -/
def chatStreamDecode (parse : List Char → Option JObj)
    (reads : List (List Char)) : List StreamChunkM × Option ProvErr :=
  feedReads parse false [] reads

/-- Reference single-shot decoding: split the whole transmitted text at
once and process its complete lines. -/
def decodeAll (parse : List Char → Option JObj) (isErr : Bool)
    (s : List Char) : List StreamChunkM × Option ProvErr :=
  let p := processLines parse isErr (splitLines s).1
  (p.1, p.2.1)

/-- Concatenation of the network reads: the text the upstream transmitted. -/
def joinReads : List (List Char) → List Char
  | [] => []
  | r :: rs => r ++ joinReads rs

/-- Concrete 403 `PERMISSION_REQUIRED` body, as in spec section 8's scenario. -/
def permReqResp : RawResp :=
  { statusCode := 403, error := some "PERMISSION_REQUIRED",
    permission := some "agents.read", message := some "Permission needed" }

/-- Concrete successful body for `ApiModule`-style calls. -/
def okResp : RawResp :=
  { statusCode := 200, success := some true }

/-- Server whose first two responses demand a permission and whose third
succeeds (a replay that again returns `PERMISSION_REQUIRED`). -/
def srvTwoPermReq : Nat → RawResp :=
  fun i => if i < 2 then permReqResp else okResp

/-- Broker that always grants. -/
def brkGrant : Nat → Option RawResp :=
  fun _ => some { granted := some true }

/-- Broker that always denies. -/
def brkDeny : Nat → Option RawResp :=
  fun _ => some { granted := some false }

/-- Broker whose call always fails with an exception. -/
def brkNone : Nat → Option RawResp :=
  fun _ => none

/-- Concrete `PERMISSION_REQUIRED` body in the `code`-based convention of
`LLMModule._request`. -/
def llmPermReqResp : RawResp :=
  { success := some false, error := some "Permission required",
    code := some "PERMISSION_REQUIRED", permission := some "llm.chat" }

/-- Concrete hard-denial body in the `code`-based convention. -/
def llmDeniedResp : RawResp :=
  { success := some false, error := some "Permission denied",
    code := some "PERMISSION_DENIED", permission := some "llm.chat" }

/-- Concrete successful chat body. -/
def llmOkResp : RawResp :=
  { success := some true,
    response := some { content := some "hello" } }

/-- Server for `LLMModule._request` with two permission demands then
success. -/
def srvLlmTwoPermReq : Nat → RawResp :=
  fun i => if i < 2 then llmPermReqResp else llmOkResp

/-- Concrete JSON parser fragment standing in for `json.loads` on the
payloads used in the witnesses; any other payload is a parse failure. -/
def sampleParse : List Char → Option JObj :=
  fun s =>
    if s = "\x7b\"a\":1\x7d".toList then
      some [("a", .jnum 1)]
    else if s = "\x7b\"textResponse\":\"hi\"\x7d".toList then
      some [("textResponse", .jstr "hi")]
    else if s = "\x7b\"error\":\"boom\",\"code\":\"E1\"\x7d".toList then
      some [("error", .jstr "boom"), ("code", .jstr "E1")]
    else
      none

/-- Concrete 403 hard-denial body in the `error`-based convention of
`ApiModule` / `ActivitiesModule` / `WebhookModule`. -/
def apiDeniedResp : RawResp :=
  { statusCode := 403, error := some "PERMISSION_DENIED",
    permission := some "agents.read", message := some "nope" }

/-- Concrete TTS-side hard-denial response. -/
def ttsDeniedResp : TtsResp :=
  { statusCode := 403,
    body := some { code := some "PERMISSION_DENIED", error := some "denied" } }

/-- Concrete failure body carrying a non-empty error and no special code. -/
def plainFailResp : RawResp :=
  { success := some false, error := some "boom" }

/-! Helper lemmas about the buffer-splitting step of the SSE decoder. -/

/-- A buffer with no complete line is returned whole as leftover. -/
theorem splitLines_fst_nil : ∀ l : List Char, (splitLines l).1 = [] → (splitLines l).2 = l := by
  intro l
  induction l with
  | nil => intro _; rfl
  | cons c cs ih =>
    intro h
    by_cases hc : c = '\n'
    · simp [splitLines, hc] at h
    · simp only [splitLines, if_neg hc] at h ⊢
      cases hr : (splitLines cs).1 with
      | nil =>
        simp only [hr] at h ⊢
        simpa using congrArg (c :: ·) (ih (by simp [hr]))
      | cons a b => simp [hr] at h

/-- The leftover partial line never contains a newline. -/
theorem newline_not_mem_splitLines_snd : ∀ l : List Char, '\n' ∉ (splitLines l).2 := by
  intro l
  induction l with
  | nil => simp [splitLines]
  | cons c cs ih =>
    by_cases hc : c = '\n'
    · simpa [splitLines, hc] using ih
    · simp only [splitLines, if_neg hc]
      cases hr : (splitLines cs).1 with
      | nil =>
        simp only [hr, List.mem_cons, not_or]
        exact ⟨fun h => hc h.symm, by simpa [hr] using ih⟩
      | cons a b => simpa [hr] using ih

/-- Splitting text without newlines yields no complete line. -/
theorem splitLines_no_newline : ∀ l : List Char, '\n' ∉ l → splitLines l = ([], l) := by
  intro l
  induction l with
  | nil => intro _; rfl
  | cons c cs ih =>
    intro h
    have hc : ¬ c = '\n' := fun hc => h (by simp [hc])
    have hcs : '\n' ∉ cs := fun hm => h (List.mem_cons_of_mem _ hm)
    simp [splitLines, if_neg hc, ih hcs]

/-- Splitting a concatenation: the first part's complete lines, then the
lines obtained from its leftover glued onto the second part. -/
theorem splitLines_append : ∀ a b : List Char,
    splitLines (a ++ b) =
      ((splitLines a).1 ++ (splitLines ((splitLines a).2 ++ b)).1,
        (splitLines ((splitLines a).2 ++ b)).2) := by
  intro a
  induction a with
  | nil => intro b; simp [splitLines]
  | cons c cs ih =>
    intro b
    by_cases hc : c = '\n'
    · simp [List.cons_append, splitLines, hc, ih b]
    · simp only [List.cons_append, splitLines, if_neg hc, ih b]
      cases hr : (splitLines cs).1 with
      | nil =>
        have h2 : (splitLines cs).2 = cs := splitLines_fst_nil cs hr
        simp only [hr, List.nil_append]
        cases hq : (splitLines (cs ++ b)).1 with
        | nil =>
          have hq2 : (splitLines (cs ++ b)).2 = cs ++ b := splitLines_fst_nil _ hq
          simp [h2, hq, splitLines, if_neg hc, hq2]
        | cons x y =>
          simp [h2, hq, splitLines, if_neg hc]
      | cons h t =>
        simp [ih b, hr, List.cons_append]

/-- Text without newlines followed by a newline contributes exactly one
complete line. -/
theorem splitLines_line_append : ∀ x y : List Char, '\n' ∉ x →
    splitLines (x ++ '\n' :: y) = (x :: (splitLines y).1, (splitLines y).2) := by
  intro x
  induction x with
  | nil => intro y _; simp [splitLines]
  | cons c cs ih =>
    intro y h
    have hc : ¬ c = '\n' := fun hc => h (by simp [hc])
    have hcs : '\n' ∉ cs := fun hm => h (List.mem_cons_of_mem _ hm)
    simp [List.cons_append, splitLines, if_neg hc, ih y hcs]

/-- Processing a concatenation of line lists: the second list is processed
from the first list's final state, unless the first list already raised. -/
theorem processLines_append (parse : List Char → Option JObj) :
    ∀ (l1 l2 : List (List Char)) (isErr : Bool),
      processLines parse isErr (l1 ++ l2) =
        match processLines parse isErr l1 with
        | (cs, some e, s) => (cs, some e, s)
        | (cs, none, s) =>
          (cs ++ (processLines parse s l2).1, (processLines parse s l2).2) := by
  intro l1
  induction l1 with
  | nil =>
    intro l2 isErr
    simp [processLines]
  | cons line l1' ih =>
    intro l2 isErr
    simp only [List.cons_append, processLines, List.append_eq]
    by_cases h1 : ((pyStrip line).isEmpty || [':'].isPrefixOf (pyStrip line)) = true
    · simp only [h1, if_true]
      exact ih l2 isErr
    · simp only [h1, if_false]
      by_cases h2 : ("event: error".toList).isPrefixOf (pyStrip line) = true
      · simp only [h2, if_true]
        exact ih l2 true
      · simp only [h2, if_false]
        by_cases h3 : ("data: ".toList).isPrefixOf (pyStrip line) = true
        · simp only [h3, if_true]
          by_cases h4 : (pyStrip line).drop 6 = "[DONE]".toList
          · simp only [if_pos h4]
            exact ih l2 false
          · simp only [if_neg h4]
            cases hp : parse ((pyStrip line).drop 6) with
            | none => exact ih l2 false
            | some d =>
              cases isErr with
              | true => simp
              | false =>
                simp only [Bool.false_eq_true, if_false]
                rw [ih l2 false]
                rcases he : processLines parse false l1' with ⟨cs, e, s⟩
                cases e with
                | none => simp
                | some err => simp
        · simp only [h3, if_false]
          exact ih l2 isErr

/-- The incremental read loop computes the same chunks and error as
splitting the whole transmitted text once, for any newline-free initial
buffer. -/
theorem feedReads_eq_decodeAll (parse : List Char → Option JObj) :
    ∀ (rs : List (List Char)) (isErr : Bool) (buffer : List Char),
      '\n' ∉ buffer →
      feedReads parse isErr buffer rs = decodeAll parse isErr (buffer ++ joinReads rs) := by
  intro rs
  induction rs with
  | nil =>
    intro isErr buffer hb
    simp [feedReads, decodeAll, joinReads, splitLines_no_newline buffer hb, processLines]
  | cons r rs' ih =>
    intro isErr buffer hb
    have hsnd : '\n' ∉ (splitLines (buffer ++ r)).2 :=
      newline_not_mem_splitLines_snd (buffer ++ r)
    have hassoc : buffer ++ joinReads (r :: rs') = (buffer ++ r) ++ joinReads rs' := by
      simp [joinReads]
    rw [hassoc]
    simp only [decodeAll, splitLines_append (buffer ++ r) (joinReads rs'),
      processLines_append, feedReads]
    rcases hp : processLines parse isErr (splitLines (buffer ++ r)).1 with ⟨cs, e, s⟩
    cases e with
    | some err => simp [hp]
    | none =>
      simp only [hp]
      rw [ih s (splitLines (buffer ++ r)).2 hsnd]
      simp [decodeAll]

/-- Decoding depends only on the concatenated text, not the read
boundaries. -/
theorem chatStreamDecode_eq_decodeAll (parse : List Char → Option JObj)
    (reads : List (List Char)) :
    chatStreamDecode parse reads = decodeAll parse false (joinReads reads) := by
  simpa [chatStreamDecode] using
    feedReads_eq_decodeAll parse reads false [] (by simp)

/-- Shared facts about a line of the form "data: " followed by a payload
that strip leaves unchanged: how the decoder's branch tests evaluate on
it. -/
theorem dataLine_tests (p : List Char) :
    (("data: ".toList ++ p).isEmpty || [':'].isPrefixOf ("data: ".toList ++ p)) = false
    ∧ ("event: error".toList).isPrefixOf ("data: ".toList ++ p) = false
    ∧ ("data: ".toList).isPrefixOf ("data: ".toList ++ p) = true
    ∧ ("data: ".toList ++ p).drop 6 = p := by
  have hcons : "data: ".toList ++ p = 'd' :: ("ata: ".toList ++ p) := rfl
  refine ⟨?_, ?_, ?_, ?_⟩
  · rw [hcons]
    simp [List.isPrefixOf]
  · rw [hcons, show "event: error".toList = 'e' :: "vent: error".toList from rfl]
    simp [List.isPrefixOf]
  · rw [List.isPrefixOf_iff_prefix]
    exact List.prefix_append _ _
  · rw [show (6 : Nat) = ("data: ".toList).length from rfl, List.drop_left]

/-- Decoding a single read equals single-shot decoding of that text. -/
theorem chatStreamDecode_single (parse : List Char → Option JObj)
    (read : List Char) :
    chatStreamDecode parse [read] = decodeAll parse false read := by
  have h := chatStreamDecode_eq_decodeAll parse [read]
  simpa [joinReads] using h

/-- C2: feeding the same SSE byte stream to the stream decoder in one piece
or split at any point across two (or more) partial reads yields the same
decoded sequence of StreamChunks (and the same raised error, if any):
decoding is invariant with respect to how the text is chunked across
network reads, because any trailing partial line is buffered until the
next read. -/
theorem chatStreamDecode_chunk_boundary_invariant
    (parse : List Char → Option JObj) (reads1 reads2 : List (List Char))
    (h : joinReads reads1 = joinReads reads2) :
    chatStreamDecode parse reads1 = chatStreamDecode parse reads2 := by
  rw [chatStreamDecode_eq_decodeAll, chatStreamDecode_eq_decodeAll, h]

/-- Witness for C2 at the spec's own example: one piece versus a split in
the middle of the JSON payload. -/
theorem chatStreamDecode_chunk_boundary_invariant_witness :
    chatStreamDecode sampleParse ["data: \x7b\"a\":1\x7d\n\n".toList]
      = chatStreamDecode sampleParse
          ["data: \x7b\"a".toList, "\":1\x7d\n\n".toList] :=
  chatStreamDecode_chunk_boundary_invariant sampleParse
    ["data: \x7b\"a\":1\x7d\n\n".toList]
    ["data: \x7b\"a".toList, "\":1\x7d\n\n".toList] (by decide)

/-- C6: when the SSE decoder encounters a data: payload that is the
literal [DONE], it emits no StreamChunk for that frame (processing simply
continues on the remaining lines with the error flag cleared), and a
stream ending at [DONE] decodes without error. -/
theorem sse_done_emits_no_chunk :
    ∀ (parse : List Char → Option JObj) (st : Bool) (rest : List (List Char)),
      processLines parse st ("data: [DONE]".toList :: rest)
          = processLines parse false rest
      ∧ chatStreamDecode parse ["data: [DONE]\n".toList] = ([], none) := by
  intro parse st rest
  constructor
  · rfl
  · rfl

/-- C5: when the SSE decoder's current event type is "error", the next
data: payload is parsed as a structured error and raised as a provider
error; no StreamChunk is yielded for that frame and the rest of the
stream (here arbitrary trailing text) is not decoded, since the raise
aborts the lazy sequence. -/
theorem sse_error_event_raises (parse : List Char → Option JObj)
    (p rest : List Char) (j : JObj)
    (hnl : '\n' ∉ p)
    (hstrip : pyStrip ("data: ".toList ++ p) = "data: ".toList ++ p)
    (hdone : ¬ p = "[DONE]".toList)
    (hparse : parse p = some j) :
    chatStreamDecode parse
        [("event: error".toList ++ '\n' :: (("data: ".toList ++ p) ++ '\n' :: rest))]
      = ([], some (mkStreamErr j)) := by
  obtain ⟨t1, t2, t3, t4⟩ := dataLine_tests p
  have hD : '\n' ∉ ("data: ".toList ++ p) := by
    intro hm
    rcases List.mem_append.1 hm with h | h
    · revert h
      decide
    · exact hnl h
  rw [chatStreamDecode_single]
  rw [decodeAll]
  rw [splitLines_line_append _ _ (by decide), splitLines_line_append _ _ hD]
  have e1 : processLines parse false
      ("event: error".toList :: ("data: ".toList ++ p) :: (splitLines rest).1)
      = processLines parse true (("data: ".toList ++ p) :: (splitLines rest).1) := rfl
  rw [e1, processLines, hstrip]
  have hd : ¬ p = ['[', 'D', 'O', 'N', 'E', ']'] := hdone
  simp [t1, t2, t3, t4, hd, hparse]

/-- Witness for C5: an error event whose payload parses, followed by a
well-formed data frame that is nevertheless not decoded. -/
theorem sse_error_event_raises_witness :
    chatStreamDecode sampleParse
        [("event: error".toList ++ '\n' ::
          (("data: ".toList ++ "\x7b\"error\":\"boom\",\"code\":\"E1\"\x7d".toList)
            ++ '\n' :: "data: \x7b\"a\":1\x7d\n\n".toList))]
      = ([], some (mkStreamErr [("error", .jstr "boom"), ("code", .jstr "E1")])) :=
  sse_error_event_raises sampleParse
    "\x7b\"error\":\"boom\",\"code\":\"E1\"\x7d".toList
    "data: \x7b\"a\":1\x7d\n\n".toList
    [("error", .jstr "boom"), ("code", .jstr "E1")]
    (by decide) (by decide) (by decide) (by decide)

/-- C9: a data: frame whose payload is malformed JSON (the parse fails) is
dropped without yielding a chunk and without raising: decoding continues
on the remaining lines exactly as if processing started there with the
error flag cleared, so well-formed frames before and after it are still
yielded. -/
theorem sse_malformed_frame_dropped (parse : List Char → Option JObj)
    (st : Bool) (bad : List Char) (rest : List (List Char))
    (hstrip : pyStrip ("data: ".toList ++ bad) = "data: ".toList ++ bad)
    (hparse : parse bad = none) :
    processLines parse st (("data: ".toList ++ bad) :: rest)
      = processLines parse false rest := by
  obtain ⟨t1, t2, t3, t4⟩ := dataLine_tests bad
  rw [processLines, hstrip]
  simp [t1, t2, t3, t4, hparse]

/-- Witness for C9: a malformed frame between two well-formed frames is
dropped while both neighbours still decode. -/
theorem sse_malformed_frame_dropped_witness :
    processLines sampleParse false
        (("data: ".toList ++ "oops".toList)
          :: ["data: \x7b\"textResponse\":\"hi\"\x7d".toList])
      = processLines sampleParse false
          ["data: \x7b\"textResponse\":\"hi\"\x7d".toList] :=
  sse_malformed_frame_dropped sampleParse false "oops".toList
    ["data: \x7b\"textResponse\":\"hi\"\x7d".toList]
    (by decide) (by decide)

/-- After n consecutive 403/PERMISSION_REQUIRED responses, each granted by
the broker, followed by a 200, `ApiModule._api_call` has sent n+1 requests
to the endpoint and n requests to the broker, and returns the final body. -/
theorem apiCall_consecutive (server : Nat → RawResp) (broker : Nat → Option RawResp) :
    ∀ (n fuel si bi : Nat),
      (∀ i, i < n → (server (si + i)).statusCode = 403
        ∧ (server (si + i)).error = some "PERMISSION_REQUIRED"
        ∧ pyTruthyStr (server (si + i)).permission = true) →
      (server (si + n)).statusCode = 200 →
      (∀ i, i < n → requestPermission (broker (bi + i)) = true) →
      n < fuel →
      apiCall server broker fuel si bi = (.ok (server (si + n)), n + 1, n) := by
  intro n
  induction n with
  | zero =>
    intro fuel si bi _ hok _ hfuel
    obtain ⟨f, rfl⟩ : ∃ f, fuel = f + 1 := ⟨fuel - 1, by omega⟩
    rw [Nat.add_zero] at hok
    simp [apiCall, hok, isSuccessStatus]
  | succ n ih =>
    intro fuel si bi hreq hok hgr hfuel
    obtain ⟨f, rfl⟩ : ∃ f, fuel = f + 1 := ⟨fuel - 1, by omega⟩
    obtain ⟨h403, herr, hperm⟩ := hreq 0 (Nat.succ_pos n)
    rw [Nat.add_zero] at h403 herr hperm
    have hg0 := hgr 0 (Nat.succ_pos n)
    rw [Nat.add_zero] at hg0
    have hrec := ih f (si + 1) (bi + 1)
      (fun i hi => by
        have h := hreq (i + 1) (by omega)
        have e : si + (i + 1) = si + 1 + i := by omega
        rwa [e] at h)
      (by
        have e : si + (n + 1) = si + 1 + n := by omega
        rwa [e] at hok)
      (fun i hi => by
        have h := hgr (i + 1) (by omega)
        have e : bi + (i + 1) = bi + 1 + i := by omega
        rwa [e] at h)
      (by omega)
    have e2 : si + 1 + n = si + (n + 1) := by omega
    rw [e2] at hrec
    simp [apiCall, h403, herr, hperm, hg0, hrec]

/-- After n consecutive code=PERMISSION_REQUIRED bodies, each granted by
the broker, followed by a success body, `LLMModule._request` (and
`VectorStore._request`) has sent n+1 requests to the endpoint and n
requests to the broker, and returns the final body. -/
theorem llmRequest_consecutive (dp : String) (server : Nat → RawResp)
    (broker : Nat → Option RawResp) :
    ∀ (n fuel si bi : Nat),
      (∀ i, i < n → (server (si + i)).code = some "PERMISSION_REQUIRED") →
      ¬ (server (si + n)).code = some "PERMISSION_REQUIRED" →
      (server (si + n)).success = some true →
      (∀ i, i < n → requestPermission (broker (bi + i)) = true) →
      n < fuel →
      llmRequest dp server broker fuel si bi = (.ok (server (si + n)), n + 1, n) := by
  intro n
  induction n with
  | zero =>
    intro fuel si bi _ hcode hsucc _ hfuel
    obtain ⟨f, rfl⟩ : ∃ f, fuel = f + 1 := ⟨fuel - 1, by omega⟩
    rw [Nat.add_zero] at hcode hsucc
    simp [llmRequest, hcode, hsucc]
  | succ n ih =>
    intro fuel si bi hreq hcode hsucc hgr hfuel
    obtain ⟨f, rfl⟩ : ∃ f, fuel = f + 1 := ⟨fuel - 1, by omega⟩
    have h0 := hreq 0 (Nat.succ_pos n)
    rw [Nat.add_zero] at h0
    have hg0 := hgr 0 (Nat.succ_pos n)
    rw [Nat.add_zero] at hg0
    have hrec := ih f (si + 1) (bi + 1)
      (fun i hi => by
        have h := hreq (i + 1) (by omega)
        have e : si + (i + 1) = si + 1 + i := by omega
        rwa [e] at h)
      (by
        have e : si + (n + 1) = si + 1 + n := by omega
        rwa [e] at hcode)
      (by
        have e : si + (n + 1) = si + 1 + n := by omega
        rwa [e] at hsucc)
      (fun i hi => by
        have h := hgr (i + 1) (by omega)
        have e : bi + (i + 1) = bi + 1 + i := by omega
        rwa [e] at h)
      (by omega)
    have e2 : si + 1 + n = si + (n + 1) := by omega
    rw [e2] at hrec
    simp [llmRequest, h0, hg0, hrec]

/-- C1 (amended): when a response signals PERMISSION_REQUIRED and the
broker grants, the wrapper replays the original request by a full
recursive call with no depth bound: if the replay again returns
PERMISSION_REQUIRED, the broker is consulted again and another replay
follows.  After n consecutive PERMISSION_REQUIRED responses, each granted,
the endpoint has been called n+1 times and the broker n times — n is
bounded only by the responses (and the model's fuel), not by 1.  This
holds for `ApiModule._api_call` and for `LLMModule._request` /
`VectorStore._request`. -/
theorem permission_retry_recursion_unbounded :
    (∀ (server : Nat → RawResp) (broker : Nat → Option RawResp)
        (n fuel si bi : Nat),
      (∀ i, i < n → (server (si + i)).statusCode = 403
        ∧ (server (si + i)).error = some "PERMISSION_REQUIRED"
        ∧ pyTruthyStr (server (si + i)).permission = true) →
      (server (si + n)).statusCode = 200 →
      (∀ i, i < n → requestPermission (broker (bi + i)) = true) →
      n < fuel →
      apiCall server broker fuel si bi = (.ok (server (si + n)), n + 1, n))
    ∧ (∀ (dp : String) (server : Nat → RawResp) (broker : Nat → Option RawResp)
        (n fuel si bi : Nat),
      (∀ i, i < n → (server (si + i)).code = some "PERMISSION_REQUIRED") →
      ¬ (server (si + n)).code = some "PERMISSION_REQUIRED" →
      (server (si + n)).success = some true →
      (∀ i, i < n → requestPermission (broker (bi + i)) = true) →
      n < fuel →
      llmRequest dp server broker fuel si bi = (.ok (server (si + n)), n + 1, n)) :=
  ⟨fun server broker => apiCall_consecutive server broker,
    fun dp server broker => llmRequest_consecutive dp server broker⟩

/-- Witness for the amended C1: two consecutive permission demands, both
granted, then success — three endpoint calls and two broker calls, in both
wrapper families. -/
theorem permission_retry_recursion_unbounded_witness :
    apiCall srvTwoPermReq brkGrant 10 0 0 = (.ok okResp, 3, 2)
    ∧ llmRequest "llm.chat" srvLlmTwoPermReq brkGrant 10 0 0 = (.ok llmOkResp, 3, 2) := by
  constructor
  · have h := permission_retry_recursion_unbounded.1 srvTwoPermReq brkGrant 2 10 0 0
      (by decide) (by decide) (by decide) (by decide)
    simpa [srvTwoPermReq, okResp] using h
  · have h := permission_retry_recursion_unbounded.2 "llm.chat" srvLlmTwoPermReq brkGrant 2 10 0 0
      (by decide) (by decide) (by decide) (by decide)
    simpa [srvLlmTwoPermReq, llmOkResp] using h

/-- Counterexample to C1 as stated: with the replay again returning
PERMISSION_REQUIRED and the broker granting each time, the broker is
called twice for the same original call, and the call then succeeds
instead of failing at depth 1. -/
theorem permission_retry_depth_one_counterexample :
    (apiCall srvTwoPermReq brkGrant 10 0 0).2.2 = 2
    ∧ (apiCall srvTwoPermReq brkGrant 10 0 0).1 = .ok okResp := by
  decide

/-- C3 (amended): for every permission-handling wrapper, a first response
signalling a hard PERMISSION_DENIED never invokes the Permission Broker
(broker-call count 0) and sends no further request (endpoint-call count 1);
but only `ApiModule._api_call` and the Activities/Webhook
`_handle_response` raise a PermissionDenied error — `LLMModule._request` /
`VectorStore._request` return the raw body unchanged, and
`TTSModule._request` raises a generic exception. -/
theorem permission_denied_never_invokes_broker :
    (∀ (server : Nat → RawResp) (broker : Nat → Option RawResp) (fuel si bi : Nat),
      (server si).statusCode = 403 →
      (server si).error = some "PERMISSION_DENIED" →
      apiCall server broker (fuel + 1) si bi
        = (.permissionDenied (server si).permission (server si).message, 1, 0))
    ∧ (∀ (server : Nat → RawResp) (broker : Nat → Option RawResp) (fuel si bi : Nat),
      (server si).statusCode = 403 →
      (server si).error = some "PERMISSION_DENIED" →
      handleCall server broker (fuel + 1) si bi
        = (.permissionDenied (server si).permission (server si).message, 1, 0))
    ∧ (∀ (dp : String) (server : Nat → RawResp) (broker : Nat → Option RawResp)
        (fuel si bi : Nat),
      (server si).code = some "PERMISSION_DENIED" →
      llmRequest dp server broker (fuel + 1) si bi = (.ok (server si), 1, 0))
    ∧ (∀ (server : Nat → TtsResp) (broker : Nat → Option RawResp)
        (fuel si bi : Nat) (d : RawResp),
      ¬ (server si).statusCode = 200 →
      (server si).body = some d →
      d.code = some "PERMISSION_DENIED" →
      ttsRequest server broker (fuel + 1) si bi
        = (.genericError
            (d.error.getD ("Request failed: " ++ toString (server si).statusCode)), 1, 0)) := by
  refine ⟨?_, ?_, ?_, ?_⟩
  · intro server broker fuel si bi h403 herr
    simp [apiCall, h403, herr]
  · intro server broker fuel si bi h403 herr
    simp [handleCall, h403, herr]
  · intro dp server broker fuel si bi hcode
    by_cases hfail : (¬ (server si).success.getD false = true)
        ∧ pyTruthyStr (server si).error = true
    · simp [llmRequest, hcode, hfail]
    · simp [llmRequest, hcode, hfail]
  · intro server broker fuel si bi d h200 hbody hcode
    simp [ttsRequest, h200, hbody, hcode]

/-- Witness for the amended C3 in all four wrapper families, with a broker
that would grant if it were (wrongly) consulted. -/
theorem permission_denied_never_invokes_broker_witness :
    apiCall (fun _ => apiDeniedResp) brkGrant 5 0 0
        = (.permissionDenied (some "agents.read") (some "nope"), 1, 0)
    ∧ handleCall (fun _ => apiDeniedResp) brkGrant 5 0 0
        = (.permissionDenied (some "agents.read") (some "nope"), 1, 0)
    ∧ llmRequest "llm.chat" (fun _ => llmDeniedResp) brkGrant 5 0 0
        = (.ok llmDeniedResp, 1, 0)
    ∧ ttsRequest (fun _ => ttsDeniedResp) brkGrant 5 0 0
        = (.genericError "denied", 1, 0) := by
  refine ⟨?_, ?_, ?_, ?_⟩
  · have h := permission_denied_never_invokes_broker.1 (fun _ => apiDeniedResp)
      brkGrant 4 0 0 (by decide) (by decide)
    simpa [apiDeniedResp] using h
  · have h := permission_denied_never_invokes_broker.2.1 (fun _ => apiDeniedResp)
      brkGrant 4 0 0 (by decide) (by decide)
    simpa [apiDeniedResp] using h
  · have h := permission_denied_never_invokes_broker.2.2.1 "llm.chat"
      (fun _ => llmDeniedResp) brkGrant 4 0 0 (by decide)
    simpa using h
  · have h := permission_denied_never_invokes_broker.2.2.2 (fun _ => ttsDeniedResp)
      brkGrant 4 0 0 { code := some "PERMISSION_DENIED", error := some "denied" }
      (by decide) (by decide) (by decide)
    simpa using h

/-- Counterexample to C3 as stated: in `LLMModule._request` (and
`VectorStore._request`), a first response with code PERMISSION_DENIED does
not fail with a PermissionDenied error — the wrapper returns the raw body
as a normal result (the broker is indeed not invoked). -/
theorem permission_denied_not_raised_counterexample :
    llmRequest "llm.chat" (fun _ => llmDeniedResp) brkGrant 5 0 0
        = (.ok llmDeniedResp, 1, 0)
    ∧ llmDeniedResp.code = some "PERMISSION_DENIED" := by
  decide

/-- C4: when a first response signals PERMISSION_REQUIRED and the broker
denies — or the broker call itself fails, which `_request_permission`
converts to a denial (fail closed) — the wrapper fails with a
PermissionDenied error carrying the response's permission string, and the
protected endpoint has been called exactly once.  Holds for
`ApiModule._api_call` and for `LLMModule._request` / `VectorStore._request`. -/
theorem broker_denial_fails_closed :
    (∀ (server : Nat → RawResp) (broker : Nat → Option RawResp)
        (fuel si bi : Nat) (p : String),
      (server si).statusCode = 403 →
      (server si).error = some "PERMISSION_REQUIRED" →
      (server si).permission = some p → ¬ p = "" →
      requestPermission (broker bi) = false →
      apiCall server broker (fuel + 1) si bi
        = (.permissionDenied (some p) (server si).message, 1, 1))
    ∧ (∀ (dp : String) (server : Nat → RawResp) (broker : Nat → Option RawResp)
        (fuel si bi : Nat) (p : String),
      (server si).code = some "PERMISSION_REQUIRED" →
      (server si).permission = some p →
      requestPermission (broker bi) = false →
      llmRequest dp server broker (fuel + 1) si bi
        = (.permissionDenied (some p) none, 1, 1))
    ∧ requestPermission none = false := by
  refine ⟨?_, ?_, rfl⟩
  · intro server broker fuel si bi p h403 herr hperm hne hdeny
    simp [apiCall, h403, herr, hperm, hne, hdeny, pyTruthyStr]
  · intro dp server broker fuel si bi p hcode hperm hdeny
    simp [llmRequest, hcode, hperm, hdeny]

/-- Witness for C4: a failing broker (exception, modelled as `none`) for
the Api wrapper and an explicit denial for the LLM wrapper, each yielding
PermissionDenied with the original permission string after a single
endpoint call. -/
theorem broker_denial_fails_closed_witness :
    apiCall (fun _ => permReqResp) brkNone 5 0 0
        = (.permissionDenied (some "agents.read") (some "Permission needed"), 1, 1)
    ∧ llmRequest "llm.chat" (fun _ => llmPermReqResp) brkDeny 5 0 0
        = (.permissionDenied (some "llm.chat") none, 1, 1) := by
  constructor
  · have h := broker_denial_fails_closed.1 (fun _ => permReqResp) brkNone 4 0 0
      "agents.read" (by decide) (by decide) (by decide) (by decide) (by decide)
    simpa [permReqResp] using h
  · have h := broker_denial_fails_closed.2.1 "llm.chat" (fun _ => llmPermReqResp)
      brkDeny 4 0 0 "llm.chat" (by decide) (by decide) (by decide)
    simpa using h

/-- C7 (amended): the Authorization header is attached exactly when the
API key is configured and truthy, and the x-app-id header exactly when the
app id is; the two `if` statements are independent, so a client configured
with both credentials sends both headers on the same request — there is no
mutual exclusion and no precedence. -/
theorem auth_headers_both_attached (apiKey appId : Option String)
    (hk : pyTruthyStr apiKey = true) (ha : pyTruthyStr appId = true) :
    ("Authorization", "Bearer " ++ apiKey.getD "") ∈ getHeaders apiKey appId
    ∧ ("x-app-id", appId.getD "") ∈ getHeaders apiKey appId := by
  simp [getHeaders, hk, ha]

/-- Witness for the amended C7. -/
theorem auth_headers_both_attached_witness :
    ("Authorization", "Bearer tok") ∈ getHeaders (some "tok") (some "app")
    ∧ ("x-app-id", "app") ∈ getHeaders (some "tok") (some "app") := by
  have h := auth_headers_both_attached (some "tok") (some "app") (by decide) (by decide)
  simpa using h

/-- Counterexample to C7 as stated: for a client configured with both an
API key and an app id, the headers are not mutually exclusive — both
Authorization and x-app-id are attached to the same request. -/
theorem auth_headers_exclusive_counterexample :
    ("Authorization", "Bearer k") ∈ getHeaders (some "k") (some "a")
    ∧ ("x-app-id", "a") ∈ getHeaders (some "k") (some "a") := by
  decide

/-- C8 (amended): typed responses copy the raw body's `error` field
verbatim.  When a raw failure body carries a non-empty error and none of
the specially handled codes (PERMISSION_REQUIRED, LLM_ERROR,
PROVIDER_UNAVAILABLE, which trigger the broker handshake or raise), the
wrapper returns it and the typed ChatResponse / VectorUpsertResponse have
success = false with that non-empty error; the SDK does not itself enforce
the invariant for raw failure bodies lacking an error string. -/
theorem typed_response_error_propagation (dp : String) (server : Nat → RawResp)
    (broker : Nat → Option RawResp) (fuel si bi : Nat) (e : String)
    (hsucc : (server si).success.getD false = false)
    (herr : (server si).error = some e) (hne : ¬ e = "")
    (hc1 : ¬ (server si).code = some "PERMISSION_REQUIRED")
    (hc2 : ¬ (server si).code = some "LLM_ERROR")
    (hc3 : ¬ (server si).code = some "PROVIDER_UNAVAILABLE") :
    llmRequest dp server broker (fuel + 1) si bi = (.ok (server si), 1, 0)
    ∧ (chatMap (server si)).success = false
    ∧ (chatMap (server si)).error = some e
    ∧ (upsertMap (server si)).success = false
    ∧ (upsertMap (server si)).error = some e := by
  refine ⟨?_, ?_, ?_, ?_, ?_⟩
  · simp [llmRequest, hsucc, herr, hne, hc1, hc2, hc3, pyTruthyStr]
  · simp [chatMap, hsucc]
  · simp [chatMap, herr]
  · simp [upsertMap, hsucc]
  · simp [upsertMap, herr]

/-- Witness for the amended C8: a failure body with a non-empty error maps
to typed responses with success = false and that error. -/
theorem typed_response_error_propagation_witness :
    llmRequest "llm.chat" (fun _ => plainFailResp) brkNone 5 0 0
        = (.ok plainFailResp, 1, 0)
    ∧ (chatMap plainFailResp).success = false
    ∧ (chatMap plainFailResp).error = some "boom"
    ∧ (upsertMap plainFailResp).success = false
    ∧ (upsertMap plainFailResp).error = some "boom" := by
  have h := typed_response_error_propagation "llm.chat" (fun _ => plainFailResp)
    brkNone 4 0 0 "boom" (by decide) (by decide) (by decide) (by decide)
    (by decide) (by decide)
  simpa using h

/-- Counterexample to C8 as stated: an empty raw body (success and error
both absent) passes through `LLMModule._request` untouched and maps to a
ChatResponse with success = false whose error is None, not a non-empty
string. -/
theorem typed_response_error_counterexample :
    llmRequest "llm.chat" (fun _ => ({} : RawResp)) brkNone 5 0 0
        = (.ok {}, 1, 0)
    ∧ (chatMap {}).success = false
    ∧ (chatMap {}).error = none := by
  decide

/-- C10: whenever the embed call succeeds with a non-empty embeddings
list, `LLMModule.search` reaches the `self.vectors.query(...)` call, whose
keyword arguments include `model` — a keyword absent from
`VectorStore.query`'s parameters — so Python raises TypeError while
binding the call, before any vector query is issued; consequently the
success path of `search` (an issued query returning results) is
unreachable for every embed result. -/
theorem search_raises_type_error :
    (∀ (α : Type) (e : EmbedResult α) (v : α) (rest : List α),
      e.success = true → e.embeddings = some (v :: rest) →
      searchModel e = .typeErrorAtQueryCall)
    ∧ (∀ (α : Type) (e : EmbedResult α) (v : α),
      ¬ searchModel e = .queryIssued v) := by
  constructor
  · intro α e v rest hs he
    simp [searchModel, he, hs, searchQueryKeywords, vectorQueryParams]
  · intro α e v
    rcases he : e.embeddings with _ | ⟨_ | ⟨w, ws⟩⟩
    · simp [searchModel, he]
    · simp [searchModel, he]
    · by_cases hs : e.success = false
      · simp [searchModel, he, hs]
      · simp [searchModel, he, hs, searchQueryKeywords, vectorQueryParams]

/-- Witness for C10: a successful embed result with one embedding ends in
the TypeError step. -/
theorem search_raises_type_error_witness :
    searchModel ({ success := true, embeddings := some [[0]] } : EmbedResult (List Int))
      = .typeErrorAtQueryCall :=
  search_raises_type_error.1 (List Int)
    { success := true, embeddings := some [[0]] } [0] [] rfl rfl

end Rtx
